import Mathlib

/-!
Verification of the EV-vs-Gas cost calculator core.

The cost engine (`src/lib/calculations.ts` and the revised copy of the same
module that produces four gas breakdowns) is embedded as pure functions over
`ℚ`.  The price-resolver API routes (`src/app/api/gas-prices/route.ts` and
`src/app/api/electricity-rates/route.ts`) are embedded as state-passing
functions over an `ExternalWorld` oracle describing the outcomes of the
external HTTP calls; each embedded handler also returns the list of network
calls it performed, so cache/no-network properties can be stated.
-/

namespace EvCalc

/-- The `gasType` field of `CalculatorInputs`: `'regular' | 'premium'`. -/
inductive GasType where
  | regular
  | premium
deriving DecidableEq, Repr

/-- `CalculatorInputs` from `src/types/index.ts`. -/
structure CalculatorInputs where
  evEfficiency : ℚ
  gasEfficiency : ℚ
  regularGasPrice : ℚ
  premiumGasPrice : ℚ
  homeElectricityPrice : ℚ
  fastChargingPrice : ℚ
  baseDistance : ℚ
  gasType : GasType
deriving DecidableEq, Repr

/-- `CostBreakdown` from `src/types/index.ts`. -/
structure CostBreakdown where
  costPerMile : ℚ
  totalCost : ℚ
  fuelCost : ℚ
deriving DecidableEq, Repr

/-- `calculateEVCostPerMileHome` (identical in both copies of the module). -/
def calculateEVCostPerMileHome (evEfficiency electricityPrice : ℚ) : ℚ :=
  if evEfficiency ≤ 0 then 0 else electricityPrice / evEfficiency

/-- `calculateEVCostPerMileFast` (identical in both copies of the module). -/
def calculateEVCostPerMileFast (evEfficiency fastChargingPrice : ℚ) : ℚ :=
  if evEfficiency ≤ 0 then 0 else fastChargingPrice / evEfficiency

/-- `calculateGasCostPerMile` (identical in both copies of the module). -/
def calculateGasCostPerMile (mpg gasPrice : ℚ) : ℚ :=
  if mpg ≤ 0 then 0 else gasPrice / mpg

/-- `calculateCostBreakdown` (identical in both copies of the module). -/
def calculateCostBreakdown (costPerMile distance : ℚ) : CostBreakdown :=
  let totalCost := costPerMile * distance
  { costPerMile := costPerMile, totalCost := totalCost, fuelCost := totalCost }

/-- `calculateSavings` (identical in both copies of the module). -/
def calculateSavings (cost1 cost2 : ℚ) : ℚ :=
  if cost2 = 0 then 0 else ((cost2 - cost1) / cost2) * 100

namespace Calculations

/-- `ScenarioResult` from `src/types/index.ts`: one `gas` breakdown. -/
structure ScenarioResult where
  distance : ℚ
  evHomeCharging : CostBreakdown
  evFastCharging : CostBreakdown
  gas : CostBreakdown
deriving DecidableEq, Repr

/-- `CalculationResults` from `src/types/index.ts`. -/
structure CalculationResults where
  baseScenario : ScenarioResult
  daily : ScenarioResult
  weekly : ScenarioResult
  monthly : ScenarioResult
  yearly : ScenarioResult
deriving DecidableEq, Repr

/-- `calculateScenario` from `src/lib/calculations.ts`: the gas breakdown uses
`regularGasPrice` or `premiumGasPrice` according to `inputs.gasType`. -/
def calculateScenario (inputs : CalculatorInputs) (distance : ℚ) : ScenarioResult :=
  let evHomeCostPerMile :=
    calculateEVCostPerMileHome inputs.evEfficiency inputs.homeElectricityPrice
  let evFastCostPerMile :=
    calculateEVCostPerMileFast inputs.evEfficiency inputs.fastChargingPrice
  let gasPrice :=
    match inputs.gasType with
    | GasType.regular => inputs.regularGasPrice
    | GasType.premium => inputs.premiumGasPrice
  let gasCostPerMile := calculateGasCostPerMile inputs.gasEfficiency gasPrice
  { distance := distance
    evHomeCharging := calculateCostBreakdown evHomeCostPerMile distance
    evFastCharging := calculateCostBreakdown evFastCostPerMile distance
    gas := calculateCostBreakdown gasCostPerMile distance }

/-- `calculateAllScenarios` from `src/lib/calculations.ts`. -/
def calculateAllScenarios (inputs : CalculatorInputs) : CalculationResults :=
  let baseDistance := inputs.baseDistance
  { baseScenario := calculateScenario inputs baseDistance
    daily := calculateScenario inputs baseDistance
    weekly := calculateScenario inputs (baseDistance * 7)
    monthly := calculateScenario inputs (baseDistance * 30)
    yearly := calculateScenario inputs (baseDistance * 365) }

end Calculations

namespace CalculationsV2

/-- `ScenarioResult` as used by the revised calculations module: four
breakdowns, `gasRegular` and `gasPremium` instead of a single `gas`. -/
structure ScenarioResult where
  distance : ℚ
  evHomeCharging : CostBreakdown
  evFastCharging : CostBreakdown
  gasRegular : CostBreakdown
  gasPremium : CostBreakdown
deriving DecidableEq, Repr

/-- `CalculationResults` over the four-breakdown `ScenarioResult`. -/
structure CalculationResults where
  baseScenario : ScenarioResult
  daily : ScenarioResult
  weekly : ScenarioResult
  monthly : ScenarioResult
  yearly : ScenarioResult
deriving DecidableEq, Repr

/-- `calculateScenario` from the revised calculations module: computes both a
regular-gas and a premium-gas breakdown (ignores `inputs.gasType`). -/
def calculateScenario (inputs : CalculatorInputs) (distance : ℚ) : ScenarioResult :=
  let evHomeCostPerMile :=
    calculateEVCostPerMileHome inputs.evEfficiency inputs.homeElectricityPrice
  let evFastCostPerMile :=
    calculateEVCostPerMileFast inputs.evEfficiency inputs.fastChargingPrice
  let gasRegularCostPerMile :=
    calculateGasCostPerMile inputs.gasEfficiency inputs.regularGasPrice
  let gasPremiumCostPerMile :=
    calculateGasCostPerMile inputs.gasEfficiency inputs.premiumGasPrice
  { distance := distance
    evHomeCharging := calculateCostBreakdown evHomeCostPerMile distance
    evFastCharging := calculateCostBreakdown evFastCostPerMile distance
    gasRegular := calculateCostBreakdown gasRegularCostPerMile distance
    gasPremium := calculateCostBreakdown gasPremiumCostPerMile distance }

/-- `calculateAllScenarios` from the revised calculations module. -/
def calculateAllScenarios (inputs : CalculatorInputs) : CalculationResults :=
  let baseDistance := inputs.baseDistance
  { baseScenario := calculateScenario inputs baseDistance
    daily := calculateScenario inputs baseDistance
    weekly := calculateScenario inputs (baseDistance * 7)
    monthly := calculateScenario inputs (baseDistance * 30)
    yearly := calculateScenario inputs (baseDistance * 365) }

/-- `calculateElectricityParityRate` from the revised calculations module. -/
def calculateElectricityParityRate (gasPrice gasEfficiency evEfficiency : ℚ) : ℚ :=
  if gasEfficiency ≤ 0 ∨ evEfficiency ≤ 0 then 0
  else
    let gasCostPerMile := calculateGasCostPerMile gasEfficiency gasPrice
    gasCostPerMile * evEfficiency

end CalculationsV2

/-! Price-resolver embedding.  Both API routes validate the ZIP against the
regex `^\d{5}(-\d{4})?$`, geocode it to a state code via one external fetch,
resolve a price through tiered fallbacks (optional EIA live fetches, then a
static per-state table), and otherwise answer with a hardcoded national
average.  External HTTP outcomes are an `ExternalWorld` oracle; every embedded
function also returns the list of network calls it performed. -/

/-- The regex `^\d{5}(-\d{4})?$` used by `validateZipCode` and by both API
routes: five digits, optionally followed by a hyphen and four digits. -/
def isValidZipCode (s : String) : Bool :=
  match s.data with
  | [a, b, c, d, e] => [a, b, c, d, e].all Char.isDigit
  | [a, b, c, d, e, h, f, g, i, j] =>
      [a, b, c, d, e].all Char.isDigit && h == '-' && [f, g, i, j].all Char.isDigit
  | _ => false

/-- One external HTTP request made by a route handler. -/
inductive NetworkCall where
  | geocode (zip5 : String)
  | eiaGasRegular (padd : String)
  | eiaGasPremium (padd : String)
  | eiaElectricity (state : String)
deriving DecidableEq, Repr

/-- Oracle for the outcomes of the external services.  `stateFromZip` is the
state abbreviation extracted from a successful Zippopotam response (`none`
covers network failure, a non-ok status, or a response without places).
`hasEiaKey` is whether `process.env.EIA_API_KEY` is set.  The three `eia`
fields are the numeric value parsed from a successful EIA response (`none`
covers fetch failure, a non-ok status, no data, or an unparseable value). -/
structure ExternalWorld where
  stateFromZip : String → Option String
  hasEiaKey : Bool
  eiaGasRegularValue : String → Option ℚ
  eiaGasPremiumValue : String → Option ℚ
  eiaElectricityCents : String → Option ℚ

/-- JavaScript `Math.round` (and two-decimal `toFixed` rounding) to cents:
round half toward positive infinity at the second decimal. -/
def round2 (q : ℚ) : ℚ := (⌊q * 100 + 1 / 2⌋ : ℚ) / 100

/-- `getPADDForState` from `src/app/api/gas-prices/route.ts`. -/
def getPADDForState (stateCode : String) : Option String :=
  match stateCode with
  | "ME" | "NH" | "VT" | "MA" | "RI" | "CT"
  | "NY" | "NJ" | "PA" | "DE" | "MD" | "DC"
  | "VA" | "WV" | "NC" | "SC" | "GA" | "FL" => some "R10"
  | "OH" | "MI" | "IN" | "IL" | "WI" | "MN"
  | "IA" | "MO" | "ND" | "SD" | "NE" | "KS"
  | "OK" | "KY" | "TN" => some "R20"
  | "TX" | "LA" | "AR" | "MS" | "AL" | "NM" => some "R30"
  | "MT" | "ID" | "WY" | "CO" | "UT" | "NV" => some "R40"
  | "WA" | "OR" | "CA" | "AK" | "HI" | "AZ" => some "R50"
  | _ => none

/-- The static `stateGasPrices` table from `src/app/api/gas-prices/route.ts`
(regular, premium). -/
def stateGasPricesTable (stateCode : String) : Option (ℚ × ℚ) :=
  match stateCode with
  | "AL" => some (3.20, 3.70)
  | "AK" => some (4.10, 4.60)
  | "AZ" => some (3.60, 4.10)
  | "AR" => some (3.15, 3.65)
  | "CA" => some (4.80, 5.20)
  | "CO" => some (3.40, 3.90)
  | "CT" => some (3.50, 4.00)
  | "DE" => some (3.30, 3.80)
  | "FL" => some (3.40, 3.90)
  | "GA" => some (3.25, 3.75)
  | "HI" => some (4.80, 5.30)
  | "ID" => some (3.60, 4.10)
  | "IL" => some (3.70, 4.20)
  | "IN" => some (3.50, 4.00)
  | "IA" => some (3.30, 3.80)
  | "KS" => some (3.20, 3.70)
  | "KY" => some (3.30, 3.80)
  | "LA" => some (3.10, 3.60)
  | "ME" => some (3.40, 3.90)
  | "MD" => some (3.50, 4.00)
  | "MA" => some (3.50, 4.00)
  | "MI" => some (3.50, 4.00)
  | "MN" => some (3.40, 3.90)
  | "MS" => some (3.15, 3.65)
  | "MO" => some (3.20, 3.70)
  | "MT" => some (3.50, 4.00)
  | "NE" => some (3.30, 3.80)
  | "NV" => some (4.20, 4.70)
  | "NH" => some (3.40, 3.90)
  | "NJ" => some (3.40, 3.90)
  | "NM" => some (3.30, 3.80)
  | "NY" => some (3.60, 4.10)
  | "NC" => some (3.30, 3.80)
  | "ND" => some (3.40, 3.90)
  | "OH" => some (3.40, 3.90)
  | "OK" => some (3.10, 3.60)
  | "OR" => some (4.00, 4.50)
  | "PA" => some (3.60, 4.10)
  | "RI" => some (3.50, 4.00)
  | "SC" => some (3.25, 3.75)
  | "SD" => some (3.30, 3.80)
  | "TN" => some (3.20, 3.70)
  | "TX" => some (3.10, 3.60)
  | "UT" => some (3.50, 4.00)
  | "VT" => some (3.40, 3.90)
  | "VA" => some (3.40, 3.90)
  | "WA" => some (4.20, 4.70)
  | "WV" => some (3.30, 3.80)
  | "WI" => some (3.40, 3.90)
  | "WY" => some (3.40, 3.90)
  | "DC" => some (3.70, 4.20)
  | _ => none

/-- The static `stateRates` table from
`src/app/api/electricity-rates/route.ts` (residential dollars per kWh). -/
def stateRatesTable (stateCode : String) : Option ℚ :=
  match stateCode with
  | "AL" => some 0.12
  | "AK" => some 0.20
  | "AZ" => some 0.12
  | "AR" => some 0.10
  | "CA" => some 0.22
  | "CO" => some 0.12
  | "CT" => some 0.22
  | "DE" => some 0.13
  | "FL" => some 0.12
  | "GA" => some 0.11
  | "HI" => some 0.30
  | "ID" => some 0.10
  | "IL" => some 0.12
  | "IN" => some 0.12
  | "IA" => some 0.11
  | "KS" => some 0.12
  | "KY" => some 0.10
  | "LA" => some 0.10
  | "ME" => some 0.16
  | "MD" => some 0.14
  | "MA" => some 0.22
  | "MI" => some 0.15
  | "MN" => some 0.13
  | "MS" => some 0.11
  | "MO" => some 0.10
  | "MT" => some 0.11
  | "NE" => some 0.10
  | "NV" => some 0.11
  | "NH" => some 0.19
  | "NJ" => some 0.15
  | "NM" => some 0.12
  | "NY" => some 0.18
  | "NC" => some 0.11
  | "ND" => some 0.10
  | "OH" => some 0.12
  | "OK" => some 0.10
  | "OR" => some 0.11
  | "PA" => some 0.14
  | "RI" => some 0.20
  | "SC" => some 0.12
  | "SD" => some 0.11
  | "TN" => some 0.10
  | "TX" => some 0.11
  | "UT" => some 0.10
  | "VT" => some 0.17
  | "VA" => some 0.11
  | "WA" => some 0.10
  | "WV" => some 0.11
  | "WI" => some 0.14
  | "WY" => some 0.11
  | "DC" => some 0.13
  | _ => none

/-- `getStateFromZip` (identical in both routes): takes the first five
characters of the ZIP and performs one Zippopotam fetch. -/
def getStateFromZip (w : ExternalWorld) (zipCode : String) :
    Option String × List NetworkCall :=
  let zip5 := String.mk (zipCode.data.take 5)
  (w.stateFromZip zip5, [NetworkCall.geocode zip5])

/-- `getStateGasPrices` from `src/app/api/gas-prices/route.ts`: with an EIA
key and a PADD mapping, fetch the regular price; when it is a positive number,
also fetch premium (estimating it as regular × 1.15 rounded to cents when that
fetch yields no positive value); on any earlier failure fall through to the
static state table. -/
def getStateGasPrices (w : ExternalWorld) (stateCode : String) :
    Option (ℚ × ℚ) × List NetworkCall :=
  if w.hasEiaKey then
    match getPADDForState stateCode with
    | some paddCode =>
      match w.eiaGasRegularValue paddCode with
      | some regularValue =>
        if 0 < regularValue then
          match w.eiaGasPremiumValue paddCode with
          | some premiumValue =>
            if 0 < premiumValue then
              (some (regularValue, premiumValue),
                [NetworkCall.eiaGasRegular paddCode, NetworkCall.eiaGasPremium paddCode])
            else
              (some (regularValue, round2 (regularValue * 1.15)),
                [NetworkCall.eiaGasRegular paddCode, NetworkCall.eiaGasPremium paddCode])
          | none =>
            (some (regularValue, round2 (regularValue * 1.15)),
              [NetworkCall.eiaGasRegular paddCode, NetworkCall.eiaGasPremium paddCode])
        else
          (stateGasPricesTable stateCode, [NetworkCall.eiaGasRegular paddCode])
      | none => (stateGasPricesTable stateCode, [NetworkCall.eiaGasRegular paddCode])
    | none => (stateGasPricesTable stateCode, [])
  else (stateGasPricesTable stateCode, [])

/-- `getStateElectricityRate` from `src/app/api/electricity-rates/route.ts`:
with an EIA key, fetch the state's residential price in cents; when it is a
positive number, return it divided by 100; otherwise fall through to the
static state table. -/
def getStateElectricityRate (w : ExternalWorld) (stateCode : String) :
    Option ℚ × List NetworkCall :=
  if w.hasEiaKey then
    match w.eiaElectricityCents stateCode with
    | some priceValue =>
      if 0 < priceValue then
        (some (priceValue / 100), [NetworkCall.eiaElectricity stateCode])
      else (stateRatesTable stateCode, [NetworkCall.eiaElectricity stateCode])
    | none => (stateRatesTable stateCode, [NetworkCall.eiaElectricity stateCode])
  else (stateRatesTable stateCode, [])

/-- A route response: a 200 JSON body, or an error message with a status. -/
inductive ApiResponse (α : Type) where
  | json (body : α)
  | error (message : String) (status : ℕ)
deriving DecidableEq, Repr

/-- JSON body of a successful gas-prices response. -/
structure GasPricesBody where
  regular : ℚ
  premium : ℚ
  source : String
deriving DecidableEq, Repr

/-- JSON body of a successful electricity-rates response. -/
structure ElectricityRatesBody where
  residential : ℚ
  source : String
deriving DecidableEq, Repr

/-- The `GET` handler of `src/app/api/gas-prices/route.ts`, with the list of
network calls it performs.  The first guard is the JavaScript truthiness test
`if (!zipCode)`, which fires when the `zip` parameter is absent or the empty
string. -/
def gasPricesGET (w : ExternalWorld) (zip : Option String) :
    ApiResponse GasPricesBody × List NetworkCall :=
  match zip with
  | none => (ApiResponse.error "ZIP code is required" 400, [])
  | some zipCode =>
    if zipCode = "" then
      (ApiResponse.error "ZIP code is required" 400, [])
    else if ¬ isValidZipCode zipCode then
      (ApiResponse.error "Invalid ZIP code format" 400, [])
    else
      let geo := getStateFromZip w zipCode
      match geo.1 with
      | some stateCode =>
        let pr := getStateGasPrices w stateCode
        match pr.1 with
        | some prices =>
          (ApiResponse.json
            { regular := prices.1, premium := prices.2
              source := "Regional average for " ++ stateCode },
            geo.2 ++ pr.2)
        | none =>
          (ApiResponse.json
            { regular := 3.50, premium := 4.00
              source := "National average (fallback)" },
            geo.2 ++ pr.2)
      | none =>
        (ApiResponse.json
          { regular := 3.50, premium := 4.00
            source := "National average (fallback)" },
          geo.2)

/-- The `GET` handler of `src/app/api/electricity-rates/route.ts`, with the
list of network calls it performs.  The first guard is the JavaScript
truthiness test `if (!zipCode)`, which fires when the `zip` parameter is
absent or the empty string; the handler later also tests the resolved rate
for truthiness (`if (rate)`), hence the `≠ 0` test. -/
def electricityRatesGET (w : ExternalWorld) (zip : Option String) :
    ApiResponse ElectricityRatesBody × List NetworkCall :=
  match zip with
  | none => (ApiResponse.error "ZIP code is required" 400, [])
  | some zipCode =>
    if zipCode = "" then
      (ApiResponse.error "ZIP code is required" 400, [])
    else if ¬ isValidZipCode zipCode then
      (ApiResponse.error "Invalid ZIP code format" 400, [])
    else
      let geo := getStateFromZip w zipCode
      match geo.1 with
      | some stateCode =>
        let res := getStateElectricityRate w stateCode
        match res.1 with
        | some rate =>
          if rate ≠ 0 then
            (ApiResponse.json
              { residential := rate, source := "Average for " ++ stateCode },
              geo.2 ++ res.2)
          else
            (ApiResponse.json
              { residential := 0.12, source := "National average (fallback)" },
              geo.2 ++ res.2)
        | none =>
          (ApiResponse.json
            { residential := 0.12, source := "National average (fallback)" },
            geo.2 ++ res.2)
      | none =>
        (ApiResponse.json
          { residential := 0.12, source := "National average (fallback)" },
          geo.2)

/-- The network calls performed by a sequence of gas-price lookups.  The
handler holds no state between requests, so the trace of each request depends
only on that request. -/
def gasLookupTraces (w : ExternalWorld) (reqs : List (Option String)) :
    List (List NetworkCall) :=
  reqs.map (fun r => (gasPricesGET w r).2)

/-- The end-to-end example inputs of the specification, with regular gas. -/
def inputsEx : CalculatorInputs :=
  { evEfficiency := 3.5
    gasEfficiency := 25
    regularGasPrice := 3.50
    premiumGasPrice := 4.00
    homeElectricityPrice := 0.12
    fastChargingPrice := 0.40
    baseDistance := 30
    gasType := GasType.regular }

/-- A world whose geocoding resolves every ZIP to California and which has no
EIA API key configured. -/
def worldCA : ExternalWorld :=
  { stateFromZip := fun _ => some "CA"
    hasEiaKey := false
    eiaGasRegularValue := fun _ => none
    eiaGasPremiumValue := fun _ => none
    eiaElectricityCents := fun _ => none }

/-- A world in which every external service fails. -/
def worldDown : ExternalWorld :=
  { stateFromZip := fun _ => none
    hasEiaKey := false
    eiaGasRegularValue := fun _ => none
    eiaGasPremiumValue := fun _ => none
    eiaElectricityCents := fun _ => none }

/-- Claim C1: for every `CalculatorInputs` value and every distance, the
scenario operation returns the given distance plus four cost breakdowns, one
per energy-sourcing strategy (EV home charging from `homeElectricityPrice`,
EV fast charging from `fastChargingPrice`, gas regular from
`regularGasPrice`, gas premium from `premiumGasPrice`), and all four
breakdowns are computed at the same distance (each total cost is its cost per
mile times that shared distance). -/
theorem spec_C1 (inputs : CalculatorInputs) (d : ℚ) :
    (CalculationsV2.calculateScenario inputs d).distance = d ∧
    (CalculationsV2.calculateScenario inputs d).evHomeCharging =
      calculateCostBreakdown
        (calculateEVCostPerMileHome inputs.evEfficiency inputs.homeElectricityPrice) d ∧
    (CalculationsV2.calculateScenario inputs d).evFastCharging =
      calculateCostBreakdown
        (calculateEVCostPerMileFast inputs.evEfficiency inputs.fastChargingPrice) d ∧
    (CalculationsV2.calculateScenario inputs d).gasRegular =
      calculateCostBreakdown
        (calculateGasCostPerMile inputs.gasEfficiency inputs.regularGasPrice) d ∧
    (CalculationsV2.calculateScenario inputs d).gasPremium =
      calculateCostBreakdown
        (calculateGasCostPerMile inputs.gasEfficiency inputs.premiumGasPrice) d ∧
    (CalculationsV2.calculateScenario inputs d).evHomeCharging.totalCost =
      (CalculationsV2.calculateScenario inputs d).evHomeCharging.costPerMile * d ∧
    (CalculationsV2.calculateScenario inputs d).evFastCharging.totalCost =
      (CalculationsV2.calculateScenario inputs d).evFastCharging.costPerMile * d ∧
    (CalculationsV2.calculateScenario inputs d).gasRegular.totalCost =
      (CalculationsV2.calculateScenario inputs d).gasRegular.costPerMile * d ∧
    (CalculationsV2.calculateScenario inputs d).gasPremium.totalCost =
      (CalculationsV2.calculateScenario inputs d).gasPremium.costPerMile * d :=
  ⟨rfl, rfl, rfl, rfl, rfl, rfl, rfl, rfl, rfl⟩

/-- Claim C3: the two versions of the scenario computation agree — same
distance, identical EV breakdowns, and the single `gas` breakdown of the
three-breakdown version equals `gasRegular` of the four-breakdown version
when `gasType` is regular and `gasPremium` when it is premium. -/
theorem spec_C3 (inputs : CalculatorInputs) (d : ℚ) :
    (Calculations.calculateScenario inputs d).distance =
      (CalculationsV2.calculateScenario inputs d).distance ∧
    (Calculations.calculateScenario inputs d).evHomeCharging =
      (CalculationsV2.calculateScenario inputs d).evHomeCharging ∧
    (Calculations.calculateScenario inputs d).evFastCharging =
      (CalculationsV2.calculateScenario inputs d).evFastCharging ∧
    (inputs.gasType = GasType.regular →
      (Calculations.calculateScenario inputs d).gas =
        (CalculationsV2.calculateScenario inputs d).gasRegular) ∧
    (inputs.gasType = GasType.premium →
      (Calculations.calculateScenario inputs d).gas =
        (CalculationsV2.calculateScenario inputs d).gasPremium) := by
  refine ⟨rfl, rfl, rfl, ?_, ?_⟩ <;> intro h <;>
    simp [Calculations.calculateScenario, CalculationsV2.calculateScenario, h]

/-- Witness for C3 at the example inputs (gas type regular) and distance 30. -/
theorem spec_C3_witness :
    (Calculations.calculateScenario inputsEx 30).gas =
      (CalculationsV2.calculateScenario inputsEx 30).gasRegular :=
  (spec_C3 inputsEx 30).2.2.2.1 rfl

/-- Claim C4: the parity rate is `(gasPrice / gasEfficiency) * evEfficiency`
when both efficiencies are positive and `0` when either is non-positive, and
at the parity rate the EV cost per mile equals the gas cost per mile. -/
theorem spec_C4 (gasPrice gasEff evEff : ℚ) :
    (0 < gasEff → 0 < evEff →
      CalculationsV2.calculateElectricityParityRate gasPrice gasEff evEff =
        gasPrice / gasEff * evEff ∧
      calculateEVCostPerMileHome evEff
          (CalculationsV2.calculateElectricityParityRate gasPrice gasEff evEff) =
        calculateGasCostPerMile gasEff gasPrice) ∧
    (gasEff ≤ 0 ∨ evEff ≤ 0 →
      CalculationsV2.calculateElectricityParityRate gasPrice gasEff evEff = 0) := by
  constructor
  · intro hg he
    have hg' : ¬ gasEff ≤ 0 := not_le.mpr hg
    have he' : ¬ evEff ≤ 0 := not_le.mpr he
    have hrate :
        CalculationsV2.calculateElectricityParityRate gasPrice gasEff evEff =
          gasPrice / gasEff * evEff := by
      simp [CalculationsV2.calculateElectricityParityRate, calculateGasCostPerMile, hg', he']
    refine ⟨hrate, ?_⟩
    rw [hrate]
    simp [calculateEVCostPerMileHome, calculateGasCostPerMile, hg', he']
    exact mul_div_cancel_right₀ (gasPrice / gasEff) (ne_of_gt he)
  · intro h
    rcases h with h | h <;>
      simp [CalculationsV2.calculateElectricityParityRate, h]

/-- Witness for C4 at the specification's example: gas 3.50 $/gal, 25 mpg,
3.5 mi/kWh, parity rate 0.49 $/kWh. -/
theorem spec_C4_witness :
    CalculationsV2.calculateElectricityParityRate 3.50 25 3.5 = 3.50 / 25 * 3.5 ∧
    calculateEVCostPerMileHome 3.5
        (CalculationsV2.calculateElectricityParityRate 3.50 25 3.5) =
      calculateGasCostPerMile 25 3.50 :=
  (spec_C4 3.50 25 3.5).1 (by norm_num) (by norm_num)

/-- Claim C7: each cost-per-mile operation returns `price / efficiency` when
the efficiency is positive and `0` when it is non-positive; all three are
total functions. -/
theorem spec_C7 (price eff : ℚ) :
    (0 < eff →
      calculateEVCostPerMileHome eff price = price / eff ∧
      calculateEVCostPerMileFast eff price = price / eff ∧
      calculateGasCostPerMile eff price = price / eff) ∧
    (eff ≤ 0 →
      calculateEVCostPerMileHome eff price = 0 ∧
      calculateEVCostPerMileFast eff price = 0 ∧
      calculateGasCostPerMile eff price = 0) := by
  constructor
  · intro h
    have h' : ¬ eff ≤ 0 := not_le.mpr h
    simp [calculateEVCostPerMileHome, calculateEVCostPerMileFast, calculateGasCostPerMile, h']
  · intro h
    simp [calculateEVCostPerMileHome, calculateEVCostPerMileFast, calculateGasCostPerMile, h]

/-- Witness for C7 at price 0.12 and efficiency 3.5, and at efficiency 0. -/
theorem spec_C7_witness :
    (calculateEVCostPerMileHome 3.5 0.12 = 0.12 / 3.5 ∧
      calculateEVCostPerMileFast 3.5 0.12 = 0.12 / 3.5 ∧
      calculateGasCostPerMile 3.5 0.12 = 0.12 / 3.5) ∧
    (calculateEVCostPerMileHome 0 0.12 = 0 ∧
      calculateEVCostPerMileFast 0 0.12 = 0 ∧
      calculateGasCostPerMile 0 0.12 = 0) :=
  ⟨(spec_C7 0.12 3.5).1 (by norm_num), (spec_C7 0.12 0).2 (by norm_num)⟩

/-- Claim C8: the all-scenarios operation (in both versions of the module)
returns the scenario at the base distance for both `baseScenario` and
`daily` (which are therefore equal), and the scenarios at 7, 30, and 365
times the base distance for `weekly`, `monthly`, and `yearly`. -/
theorem spec_C8 (inputs : CalculatorInputs) :
    Calculations.calculateAllScenarios inputs =
      { baseScenario := Calculations.calculateScenario inputs inputs.baseDistance
        daily := Calculations.calculateScenario inputs inputs.baseDistance
        weekly := Calculations.calculateScenario inputs (inputs.baseDistance * 7)
        monthly := Calculations.calculateScenario inputs (inputs.baseDistance * 30)
        yearly := Calculations.calculateScenario inputs (inputs.baseDistance * 365) } ∧
    (Calculations.calculateAllScenarios inputs).daily =
      (Calculations.calculateAllScenarios inputs).baseScenario ∧
    CalculationsV2.calculateAllScenarios inputs =
      { baseScenario := CalculationsV2.calculateScenario inputs inputs.baseDistance
        daily := CalculationsV2.calculateScenario inputs inputs.baseDistance
        weekly := CalculationsV2.calculateScenario inputs (inputs.baseDistance * 7)
        monthly := CalculationsV2.calculateScenario inputs (inputs.baseDistance * 30)
        yearly := CalculationsV2.calculateScenario inputs (inputs.baseDistance * 365) } ∧
    (CalculationsV2.calculateAllScenarios inputs).daily =
      (CalculationsV2.calculateAllScenarios inputs).baseScenario :=
  ⟨rfl, rfl, rfl, rfl⟩

/-- Claim C9: the cost-breakdown operation echoes the cost per mile and sets
both the total cost and the fuel cost to cost per mile times distance. -/
theorem spec_C9 (cpm distance : ℚ) :
    (calculateCostBreakdown cpm distance).totalCost = cpm * distance ∧
    (calculateCostBreakdown cpm distance).fuelCost =
      (calculateCostBreakdown cpm distance).totalCost ∧
    (calculateCostBreakdown cpm distance).costPerMile = cpm :=
  ⟨rfl, rfl, rfl⟩

/-- Claim C10: the savings-percentage operation returns
`((cost2 - cost1) / cost2) * 100` when `cost2` is non-zero and `0` when
`cost2` is zero. -/
theorem spec_C10 (cost1 cost2 : ℚ) :
    (cost2 ≠ 0 → calculateSavings cost1 cost2 = ((cost2 - cost1) / cost2) * 100) ∧
    (cost2 = 0 → calculateSavings cost1 cost2 = 0) := by
  constructor
  · intro h; simp [calculateSavings, h]
  · intro h; simp [calculateSavings, h]

/-- Witness for C10 at costs (1.03, 4.20) and at a zero denominator. -/
theorem spec_C10_witness :
    calculateSavings 1.03 4.20 = ((4.20 - 1.03) / 4.20) * 100 ∧
    calculateSavings 1.03 0 = 0 :=
  ⟨(spec_C10 1.03 4.20).1 (by norm_num), (spec_C10 1.03 0).2 rfl⟩

/-- Claim C6: a ZIP that fails the `^\d{5}(-\d{4})?$` pattern makes both
price routes answer with a validation failure (status 400, the
required-parameter message for the empty string caught by the truthiness
guard and the format message otherwise) and perform no network call at
all. -/
theorem spec_C6 (w : ExternalWorld) (z : String) (hz : isValidZipCode z = false) :
    gasPricesGET w (some z) =
      (ApiResponse.error
        (if z = "" then "ZIP code is required" else "Invalid ZIP code format") 400, []) ∧
    electricityRatesGET w (some z) =
      (ApiResponse.error
        (if z = "" then "ZIP code is required" else "Invalid ZIP code format") 400, []) := by
  by_cases he : z = "" <;>
    constructor <;> simp [gasPricesGET, electricityRatesGET, he, hz]

/-- Witness for C6 at the malformed ZIP "1234". -/
theorem spec_C6_witness :
    gasPricesGET worldCA (some "1234") =
      (ApiResponse.error "Invalid ZIP code format" 400, []) ∧
    electricityRatesGET worldCA (some "1234") =
      (ApiResponse.error "Invalid ZIP code format" 400, []) :=
  spec_C6 worldCA "1234" (by decide)

/-- Claim C5: for a syntactically valid ZIP, when geocoding fails or every
price tier (live and static) yields nothing, both routes still answer 200
with the hardcoded national fallback (gas 3.50/4.00, electricity 0.12, source
label "National average (fallback)") — never "no data". -/
theorem spec_C5 (w : ExternalWorld) (z : String) (hz : isValidZipCode z = true)
    (hgas : ∀ st, w.stateFromZip (String.mk (z.data.take 5)) = some st →
      (getStateGasPrices w st).1 = none)
    (helec : ∀ st, w.stateFromZip (String.mk (z.data.take 5)) = some st →
      (getStateElectricityRate w st).1 = none) :
    (gasPricesGET w (some z)).1 =
      ApiResponse.json
        { regular := 3.50, premium := 4.00, source := "National average (fallback)" } ∧
    (electricityRatesGET w (some z)).1 =
      ApiResponse.json
        { residential := 0.12, source := "National average (fallback)" } := by
  have hne : ¬ z = "" := by
    intro h
    rw [h] at hz
    exact absurd hz (by decide)
  constructor
  · simp only [gasPricesGET, getStateFromZip, hz]
    rcases hst : w.stateFromZip (String.mk (z.data.take 5)) with _ | st
    · simp [hst, hne]
    · simp [hst, hne, hgas st hst]
  · simp only [electricityRatesGET, getStateFromZip, hz]
    rcases hst : w.stateFromZip (String.mk (z.data.take 5)) with _ | st
    · simp [hst, hne]
    · simp [hst, hne, helec st hst]

/-- Witness for C5: ZIP "12345" in a world where every external service
fails. -/
theorem spec_C5_witness :
    (gasPricesGET worldDown (some "12345")).1 =
      ApiResponse.json
        { regular := 3.50, premium := 4.00, source := "National average (fallback)" } ∧
    (electricityRatesGET worldDown (some "12345")).1 =
      ApiResponse.json
        { residential := 0.12, source := "National average (fallback)" } :=
  spec_C5 worldDown "12345" (by decide) (fun st h => nomatch h) (fun st h => nomatch h)

/-- Counterexample to claim C2 as stated: the routes keep no cache, so in a
back-to-back pair of lookups for the same region the second lookup performs
the live geocode fetch again instead of answering from a cache — its network
trace is the non-empty `[geocode "90210"]`. -/
theorem spec_C2_counterexample :
    gasLookupTraces worldCA [some "90210", some "90210"] =
      [[NetworkCall.geocode "90210"], [NetworkCall.geocode "90210"]] ∧
    [NetworkCall.geocode "90210"] ≠ ([] : List NetworkCall) := by
  constructor
  · rfl
  · decide

/-- Claim C2 (amended): neither price route caches results — every lookup
with a valid ZIP, in particular a repeated lookup for the same region however
soon after the first, begins by performing the live geocode fetch again. -/
theorem spec_C2 (w : ExternalWorld) (z : String) (hz : isValidZipCode z = true) :
    (∃ rest, (gasPricesGET w (some z)).2 =
      NetworkCall.geocode (String.mk (z.data.take 5)) :: rest) ∧
    (∃ rest, (electricityRatesGET w (some z)).2 =
      NetworkCall.geocode (String.mk (z.data.take 5)) :: rest) := by
  have hne : ¬ z = "" := by
    intro h
    rw [h] at hz
    exact absurd hz (by decide)
  constructor
  · simp only [gasPricesGET, getStateFromZip, hz]
    rcases hst : w.stateFromZip (String.mk (z.data.take 5)) with _ | st
    · exact ⟨[], by simp [hst, hne]⟩
    · rcases hpr : (getStateGasPrices w st).1 with _ | pr
      · exact ⟨(getStateGasPrices w st).2, by simp [hst, hne, hpr]⟩
      · exact ⟨(getStateGasPrices w st).2, by simp [hst, hne, hpr]⟩
  · simp only [electricityRatesGET, getStateFromZip, hz]
    rcases hst : w.stateFromZip (String.mk (z.data.take 5)) with _ | st
    · exact ⟨[], by simp [hst, hne]⟩
    · rcases hres : (getStateElectricityRate w st).1 with _ | r
      · exact ⟨(getStateElectricityRate w st).2, by simp [hst, hne, hres]⟩
      · by_cases hr : r ≠ 0
        · exact ⟨(getStateElectricityRate w st).2, by simp [hst, hne, hres, hr]⟩
        · exact ⟨(getStateElectricityRate w st).2, by simp [hst, hne, hres, hr]⟩

/-- Witness for the amended C2: a lookup for "90210" in `worldCA` starts with
the geocode fetch. -/
theorem spec_C2_witness :
    (∃ rest, (gasPricesGET worldCA (some "90210")).2 =
      NetworkCall.geocode (String.mk (("90210" : String).data.take 5)) :: rest) ∧
    (∃ rest, (electricityRatesGET worldCA (some "90210")).2 =
      NetworkCall.geocode (String.mk (("90210" : String).data.take 5)) :: rest) :=
  spec_C2 worldCA "90210" (by decide)

end EvCalc
